import Mathlib

/-!
Shallow embedding of the announcement scheduling core of the
sst_announcement repository, together with proofs of its specified
properties.

The definitions below are translated from:
  - src/app/api/announcements/route.ts
      (slot finder, super-admin reflow, conflict query, adjustments,
       priority clamping)
  - src/utils/announcementUtils.ts
      (role helpers, presentation ordering comparator, visibility gate)

Timestamps are modelled as integer milliseconds since the epoch, as in
JS Date.getTime(). JS Array.prototype.sort is a stable sort and is
modelled with List.insertionSort, which is stable.
-/

namespace SSTAnnouncement

/-- Date.setSeconds(0, 0): zero out the seconds and milliseconds fields,
truncating the timestamp to whole minutes. -/
def truncateToMinute (t : Int) : Int := t - t % 60000

/-- SLOT_INTERVAL_MINUTES constant from route.ts. -/
def SLOT_INTERVAL_MINUTES : Int := 5

/-- One schedule window width in milliseconds (5 minutes). -/
def slotIntervalMs : Int := SLOT_INTERVAL_MINUTES * 60000

/-! ### Roles (src/utils/announcementUtils.ts) -/

/-- UserRole union type from announcementUtils.ts. -/
inductive UserRole where
  | student
  | student_admin
  | admin
  | super_admin
deriving DecidableEq, Repr

/-- normalizeUserRole from announcementUtils.ts: map a raw role string
(and an optional is_admin flag) to a UserRole. A missing or empty role
string and any unknown role string fall back on the is_admin flag. -/
def normalizeUserRole (role : Option String) (isAdmin : Option Bool) : UserRole :=
  let fallback : UserRole := if isAdmin.getD false then .admin else .student
  match role with
  | none => fallback
  | some r =>
    if r = "" then fallback
    else if r = "user" then .student
    else if r = "student" then .student
    else if r = "student_admin" then .student_admin
    else if r = "admin" then .admin
    else if r = "super_admin" then .super_admin
    else fallback

/-- hasAdminAccess from announcementUtils.ts. -/
def hasAdminAccess (userRole : UserRole) : Bool :=
  [UserRole.admin, UserRole.student_admin, UserRole.super_admin].contains userRole

/-- getAnnouncementPriority from announcementUtils.ts: the role rank of a
submitter (higher = more authority). -/
def getAnnouncementPriority (userRole : UserRole) : Int :=
  match userRole with
  | .student => 1
  | .student_admin => 2
  | .admin => 3
  | .super_admin => 4

/-! ### Conflict query (fetchConflictsForRange in route.ts) -/

/-- A persisted announcement row as seen by the conflict query
(id, scheduled_at, priority_level, author role via the LEFT JOIN, status). -/
structure StoredItem where
  id : Int
  scheduled_at : Option Int
  priority_level : Option Int
  author_role : Option String
  status : String
deriving DecidableEq, Repr

/-- The status values that make a row a scheduling conflict. -/
def conflictStatuses : List String := ["scheduled", "under_review", "active"]

/-- fetchConflictsForRange from route.ts: rows with a scheduled_at inside
the half-open window and a status in conflictStatuses, in table order. -/
def fetchConflictsForRange (db : List StoredItem) (start stop : Int) :
    List StoredItem :=
  db.filter fun a =>
    match a.scheduled_at with
    | some t => decide (start ≤ t) && decide (t < stop) && conflictStatuses.contains a.status
    | none => false

/-! ### Slot finder (findNextAvailableScheduleSlot in route.ts) -/

/-- ScheduleResolutionResult type from route.ts. -/
structure ScheduleResolutionResult where
  scheduledAt : Int
  autoAdjusted : Bool
deriving DecidableEq, Repr

/-- maxIterations constant of findNextAvailableScheduleSlot. -/
def maxIterations : Nat := 180

/-- The loop body of findNextAvailableScheduleSlot: probe the window
starting at candidate; on a free window return it, otherwise advance one
window width, up to the given fuel. The thrown BadRequestError is
modelled as the error branch of Except. -/
def findSlotLoop (db : List StoredItem) (normalizedDesired : Int) :
    Nat → Int → Except String ScheduleResolutionResult
  | 0, _ =>
    .error "Unable to automatically find an available time slot within the next 3 hours. Please choose a different scheduled time."
  | fuel + 1, candidate =>
    let minuteEnd := candidate + slotIntervalMs
    let conflicts := fetchConflictsForRange db candidate minuteEnd
    if conflicts.isEmpty then
      .ok { scheduledAt := candidate, autoAdjusted := decide (candidate ≠ normalizedDesired) }
    else
      findSlotLoop db normalizedDesired fuel minuteEnd

/-- findNextAvailableScheduleSlot from route.ts. -/
def findNextAvailableScheduleSlot (db : List StoredItem) (desiredDate : Int) :
    Except String ScheduleResolutionResult :=
  let normalizedDesired := truncateToMinute desiredDate
  findSlotLoop db normalizedDesired maxIterations normalizedDesired

/-! ### Super-admin reflow (reflowSchedulesForSuperAdmin in route.ts) -/

/-- ScheduleAdjustment type from route.ts. -/
structure ScheduleAdjustment where
  id : Int
  newTime : Int
deriving DecidableEq, Repr

/-- One entry of the combined records array built by the reflow: an
existing conflict (id = some) or the new announcement (id = none). -/
structure ReflowRecord where
  id : Option Int
  priorityLevel : Int
  rolePriority : Int
  scheduledAt : Option Int
deriving DecidableEq, Repr

/-- The record the reflow builds for an existing conflict row:
priority_level defaulted to 3, role rank derived from the author role. -/
def toReflowRecord (c : StoredItem) : ReflowRecord :=
  { id := some c.id
    priorityLevel := c.priority_level.getD 3
    rolePriority := getAnnouncementPriority (normalizeUserRole c.author_role none)
    scheduledAt := c.scheduled_at }

/-- The combined records array of the reflow: conflicts in query order
followed by the new announcement (id = none) last. -/
def reflowRecords (conflicts : List StoredItem) (normalizedDesired : Int)
    (newAnnouncementPriority : Int) (userRole : UserRole) : List ReflowRecord :=
  conflicts.map toReflowRecord ++
    [{ id := none
       priorityLevel := newAnnouncementPriority
       rolePriority := getAnnouncementPriority userRole
       scheduledAt := some normalizedDesired }]

/-- The order decided by the reflow comparator: a sorts no later than b
when the comparator (priorityLevel ascending, then rolePriority
descending) returns at most zero on (a, b). -/
def ReflowLE (a b : ReflowRecord) : Prop :=
  a.priorityLevel < b.priorityLevel ∨
    (a.priorityLevel = b.priorityLevel ∧ b.rolePriority ≤ a.rolePriority)

instance : DecidableRel ReflowLE := fun a b =>
  inferInstanceAs (Decidable (a.priorityLevel < b.priorityLevel ∨
    (a.priorityLevel = b.priorityLevel ∧ b.rolePriority ≤ a.rolePriority)))

instance : IsTotal ReflowRecord ReflowLE where
  total a b := by
    unfold ReflowLE
    omega

instance : IsTrans ReflowRecord ReflowLE where
  trans a b c hab hbc := by
    unfold ReflowLE at *
    omega

/-- The walk over the sorted records: starting from the cursor, each
record consumes one window. A record with id = none records the cursor as
the new announcement time (the last such assignment wins, matching the
imperative loop); an existing record whose stored time is not exactly the
cursor emits a ScheduleAdjustment. Returns the adjustments in emission
order and the assigned new-announcement time, if any record had no id. -/
def reflowWalk : List ReflowRecord → Int → List ScheduleAdjustment × Option Int
  | [], _ => ([], none)
  | r :: rest, cursor =>
    let tail := reflowWalk rest (cursor + slotIntervalMs)
    match r.id with
    | none => (tail.1, some (tail.2.getD cursor))
    | some i =>
      if r.scheduledAt = some cursor then tail
      else (⟨i, cursor⟩ :: tail.1, tail.2)

/-- Result type of the reflow: assigned time, autoAdjusted flag and the
pending adjustments. -/
structure ReflowResult where
  scheduledAt : Int
  autoAdjusted : Bool
  adjustments : List ScheduleAdjustment
deriving DecidableEq, Repr

/-- The conflicts the reflow queries: the single window starting at the
truncated desired time. -/
def reflowConflicts (db : List StoredItem) (desiredDate : Int) : List StoredItem :=
  fetchConflictsForRange db (truncateToMinute desiredDate)
    (truncateToMinute desiredDate + slotIntervalMs)

/-- The sorted combined records of the reflow (stable sort by
priorityLevel ascending, then rolePriority descending). -/
def reflowSorted (db : List StoredItem) (desiredDate : Int)
    (newAnnouncementPriority : Int) (userRole : UserRole) : List ReflowRecord :=
  (reflowRecords (reflowConflicts db desiredDate) (truncateToMinute desiredDate)
      newAnnouncementPriority userRole).insertionSort ReflowLE

/-- reflowSchedulesForSuperAdmin from route.ts. -/
def reflowSchedulesForSuperAdmin (db : List StoredItem) (desiredDate : Int)
    (newAnnouncementPriority : Int) (userRole : UserRole) : ReflowResult :=
  let normalizedDesired := truncateToMinute desiredDate
  let conflicts := reflowConflicts db desiredDate
  if conflicts.isEmpty then
    { scheduledAt := normalizedDesired
      autoAdjusted := decide (normalizedDesired ≠ truncateToMinute desiredDate)
      adjustments := [] }
  else
    let sortedRecords := reflowSorted db desiredDate newAnnouncementPriority userRole
    let walk := reflowWalk sortedRecords normalizedDesired
    let assignedNewAnnouncementTime := walk.2.getD normalizedDesired
    { scheduledAt := assignedNewAnnouncementTime
      autoAdjusted :=
        decide (assignedNewAnnouncementTime ≠ normalizedDesired) || decide (walk.1 ≠ [])
      adjustments := walk.1 }

/-! ### POST handler glue (route.ts lines 105-160) -/

/-- The schedule-resolution step of the POST handler: super_admin goes
through the reflow, everyone else through the slot finder with no
adjustments. Returns (scheduledAt, autoAdjusted, adjustments). -/
def resolveSchedule (db : List StoredItem) (userRole : UserRole)
    (scheduledDate : Int) (validPriority : Int) :
    Except String (Int × Bool × List ScheduleAdjustment) :=
  if userRole = .super_admin then
    let r := reflowSchedulesForSuperAdmin db scheduledDate validPriority userRole
    .ok (r.scheduledAt, r.autoAdjusted, r.adjustments)
  else
    (findNextAvailableScheduleSlot db scheduledDate).map fun s =>
      (s.scheduledAt, s.autoAdjusted, [])

/-- applyScheduleAdjustments from route.ts: each adjustment updates the
stored scheduled_at of the row with the matching id. -/
def applyScheduleAdjustments (db : List StoredItem)
    (adjustments : List ScheduleAdjustment) : List StoredItem :=
  adjustments.foldl
    (fun acc adj =>
      acc.map fun item =>
        if item.id = adj.id then { item with scheduled_at := some adj.newTime } else item)
    db

/-- validPriorityLevel computation from the POST handler:
Math.max(0, Math.min(3, priority_level ?? 3)). -/
def validPriorityLevel (priority_level : Option Int) : Int :=
  max 0 (min 3 (priority_level.getD 3))

/-! ### Presentation ordering (sortAnnouncementsByPriority) -/

/-- The announcement fields consumed by the presentation ordering and the
visibility gate. -/
structure Announcement where
  id : Option Int
  is_emergency : Bool
  priority_level : Option Int
  created_at : Option Int
  priority_until : Option Int
  status : String
  category : String
  scheduled_at : Option Int
  target_years : Option (List Int)
deriving DecidableEq, Repr

/-- SAME_TIME_THRESHOLD constant from sortAnnouncementsByPriority. -/
def SAME_TIME_THRESHOLD : Int := 1000

/-- The aHasPriority / bHasPriority test of the comparator: a still-future
priority_until together with status urgent. -/
def hasActivePriorityWindow (now : Int) (a : Announcement) : Bool :=
  match a.priority_until with
  | some t => decide (now < t) && (a.status == "urgent")
  | none => false

/-- The comparator body of sortAnnouncementsByPriority, returning the JS
comparator value (negative: a first, positive: b first). created_at
defaults to the epoch, priority_level to 3, id to 0, as in the source. -/
def announcementCmp (now : Int) (a b : Announcement) : Int :=
  if a.is_emergency && !b.is_emergency then -1
  else if !a.is_emergency && b.is_emergency then 1
  else
    let aPriorityNum := a.priority_level.getD 3
    let bPriorityNum := b.priority_level.getD 3
    let aDate := a.created_at.getD 0
    let bDate := b.created_at.getD 0
    let timeDiff := |aDate - bDate|
    if timeDiff ≤ SAME_TIME_THRESHOLD then
      if aPriorityNum ≠ bPriorityNum then aPriorityNum - bPriorityNum
      else b.id.getD 0 - a.id.getD 0
    else if aPriorityNum ≠ bPriorityNum then aPriorityNum - bPriorityNum
    else
      let aHasPriority := hasActivePriorityWindow now a
      let bHasPriority := hasActivePriorityWindow now b
      if aHasPriority && !bHasPriority then -1
      else if !aHasPriority && bHasPriority then 1
      else bDate - aDate

/-- a may be placed no later than b by the comparator. -/
def AnnouncementLE (now : Int) (a b : Announcement) : Prop :=
  announcementCmp now a b ≤ 0

instance (now : Int) : DecidableRel (AnnouncementLE now) := fun a b =>
  inferInstanceAs (Decidable (announcementCmp now a b ≤ 0))

/-- sortAnnouncementsByPriority from announcementUtils.ts; the stable JS
sort is modelled by a stable insertion sort. The userRole parameter is
unused by the source comparator as well. -/
def sortAnnouncementsByPriority (announcements : List Announcement)
    (userRole : UserRole) (now : Int) : List Announcement :=
  announcements.insertionSort (AnnouncementLE now)

/-! ### Visibility gate (isVisibleToUser) -/

/-- The toLowerCase call of the visibility gate, modelled structurally
over the character list (Char.toLower agrees with the source for the
ASCII literal comparison the gate performs). -/
def toLowerStr (s : String) : String := ⟨s.data.map Char.toLower⟩

/-- isVisibleToUser from announcementUtils.ts. now stands for the
new Date() taken inside the function; isAdmin and userId are accepted and
ignored exactly as in the source signature. The JS falsiness test on
studentIntakeCode is rendered by defaulting to 0 and testing for 0. -/
def isVisibleToUser (a : Announcement) (userRole : UserRole)
    (isAdmin : Option Bool) (userId : Option Int) (isSuperAdmin : Option Bool)
    (studentIntakeCode : Option Int) (now : Int) : Bool :=
  let hasAdminLevel := hasAdminAccess userRole
  if !hasAdminLevel && !(isSuperAdmin.getD false) then
    if a.status == "scheduled" then false
    else if !(a.category == "") && (toLowerStr a.category == "scheduled") then false
    else if (match a.scheduled_at with
             | some t => decide (now < t)
             | none => false) then false
    else
      match a.target_years with
      | some targetYears =>
        if !targetYears.isEmpty then
          if studentIntakeCode.getD 0 == 0 || !(targetYears.contains (studentIntakeCode.getD 0))
          then false
          else true
        else true
      | none => true
  else true

/-! ### Concrete inputs used by the scenarios -/

/-- A store in which the first n windows from time 0 are all occupied by
conflicting rows. -/
def occupiedDb (n : Nat) : List StoredItem :=
  (List.range n).map fun k =>
    { id := Int.ofNat k
      scheduled_at := some (Int.ofNat k * 300000)
      priority_level := some 3
      author_role := some "admin"
      status := "scheduled" }

/-- Scenario B store: the single existing item X at 10:00 (36000000 ms),
priority 3, authored by a role of rank 4. -/
def scenarioB_db : List StoredItem :=
  [{ id := 1, scheduled_at := some 36000000, priority_level := some 3,
     author_role := some "super_admin", status := "scheduled" }]

/-- Scenario C item A: priority 1, created at T = 0, id 1. -/
def scenarioC_A : Announcement :=
  { id := some 1, is_emergency := false, priority_level := some 1,
    created_at := some 0, priority_until := none, status := "active",
    category := "general", scheduled_at := none, target_years := none }

/-- Scenario C item B: priority 1, created at T + 500 ms, higher id 2. -/
def scenarioC_B : Announcement :=
  { scenarioC_A with id := some 2, created_at := some 500 }

/-- Scenario D item: target years [23, 25]. -/
def scenarioD_item : Announcement :=
  { id := some 3, is_emergency := false, priority_level := some 3,
    created_at := some 0, priority_until := none, status := "active",
    category := "general", scheduled_at := none, target_years := some [23, 25] }

/-- P6 item: status scheduled with a scheduled_at already in the past. -/
def p6_item : Announcement :=
  { id := some 4, is_emergency := false, priority_level := some 3,
    created_at := some 0, priority_until := none, status := "scheduled",
    category := "general", scheduled_at := some 0, target_years := none }

/-- Two announcements tied on every comparator key (same id, creation
time, priority, emergency flag; they differ only in category, which the
comparator never reads). -/
def tiedX : Announcement :=
  { id := some 5, is_emergency := false, priority_level := some 2,
    created_at := some 100, priority_until := none, status := "active",
    category := "a", scheduled_at := none, target_years := none }

/-- Second element of the tied pair. -/
def tiedY : Announcement :=
  { tiedX with category := "b" }

/-- Cycle witness items: equal priority, no emergency, no urgent window;
pairwise creation gaps of 900 ms but an end-to-end gap of 1800 ms, with
ids chosen so the id tie-break and the creation-time fallback disagree. -/
def cycA : Announcement :=
  { id := some 10, is_emergency := false, priority_level := some 1,
    created_at := some 0, priority_until := none, status := "active",
    category := "general", scheduled_at := none, target_years := none }

/-- Cycle witness item created 900 ms after cycA, id 5. -/
def cycB : Announcement :=
  { cycA with id := some 5, created_at := some 900 }

/-- Cycle witness item created 1800 ms after cycA, id 1. -/
def cycC : Announcement :=
  { cycA with id := some 1, created_at := some 1800 }

/-! ### Helper lemmas -/

/-- Advancing the cursor by one window width and then k widths is the
same as advancing it by k + 1 widths. -/
theorem window_step (cursor : Int) (k : Nat) :
    cursor + slotIntervalMs + (k : Int) * slotIntervalMs =
      cursor + ((k + 1 : Nat) : Int) * slotIntervalMs := by
  push_cast
  ring

/-- Everything the slot-finder loop guarantees about a successful result:
the autoAdjusted flag compares the result against the normalized desired
time, the result is never before the cursor the loop started from, and it
is the starting cursor plus fewer than fuel window widths. -/
theorem findSlotLoop_ok (db : List StoredItem) (nd : Int) :
    ∀ (fuel : Nat) (cursor : Int) (res : ScheduleResolutionResult),
      findSlotLoop db nd fuel cursor = .ok res →
      res.autoAdjusted = decide (res.scheduledAt ≠ nd) ∧
      cursor ≤ res.scheduledAt ∧
      ∃ k : Nat, k < fuel ∧ res.scheduledAt = cursor + (k : Int) * slotIntervalMs := by
  intro fuel
  induction fuel with
  | zero =>
    intro cursor res h
    simp [findSlotLoop] at h
  | succ n ih =>
    intro cursor res h
    rw [findSlotLoop] at h
    by_cases hc : (fetchConflictsForRange db cursor (cursor + slotIntervalMs)).isEmpty
    · rw [if_pos hc] at h
      obtain rfl : ScheduleResolutionResult.mk cursor (decide (cursor ≠ nd)) = res :=
        Except.ok.inj h
      refine ⟨rfl, le_refl _, 0, Nat.succ_pos n, by simp⟩
    · rw [if_neg hc] at h
      obtain ⟨ha, hle, k, hk, he⟩ := ih (cursor + slotIntervalMs) res h
      refine ⟨ha, ?_, k + 1, by omega, ?_⟩
      · have hpos : (0 : Int) < slotIntervalMs := by decide
        omega
      · rw [he, window_step]

/-- C9: the priority level used by the scheduling core is the submitted
value clamped into [0, 3]: inputs below 0 become 0, inputs above 3 become
3, in-range values pass through unchanged, and a missing value defaults
to 3. -/
theorem validPriorityLevel_clamped (p : Int) :
    (p < 0 → validPriorityLevel (some p) = 0) ∧
    (3 < p → validPriorityLevel (some p) = 3) ∧
    (0 ≤ p → p ≤ 3 → validPriorityLevel (some p) = p) ∧
    validPriorityLevel none = 3 := by
  unfold validPriorityLevel
  refine ⟨fun h => ?_, fun h => ?_, fun h1 h2 => ?_, rfl⟩ <;> simp [Option.getD] <;> omega

/-- Witness for validPriorityLevel_clamped at -5, 7, 2 and a missing
value. -/
theorem validPriorityLevel_clamped_witness :
    validPriorityLevel (some (-5)) = 0 ∧ validPriorityLevel (some 7) = 3 ∧
      validPriorityLevel (some 2) = 2 ∧ validPriorityLevel none = 3 :=
  ⟨(validPriorityLevel_clamped (-5)).1 (by decide),
   (validPriorityLevel_clamped 7).2.1 (by decide),
   (validPriorityLevel_clamped 2).2.2.1 (by decide) (by decide),
   (validPriorityLevel_clamped 0).2.2.2⟩

/-- C2: the slot finder bound is 180 probes, not 36. With the 36 windows
from the desired time all occupied the finder does not fail; it keeps
probing and returns the 37th window (the 3-hour mark), contradicting the
36-probe (3-hour) bound stated by the spec and by the source comments and
error message themselves. -/
theorem findSlot_probes_beyond_36_windows :
    (∀ k : Nat, k < 36 →
        fetchConflictsForRange (occupiedDb 36) ((k : Int) * 300000)
          ((k : Int) * 300000 + 300000) ≠ []) ∧
    findNextAvailableScheduleSlot (occupiedDb 36) 0 = .ok ⟨10800000, true⟩ ∧
    maxIterations = 180 :=
  ⟨by decide, rfl, rfl⟩

/-- C3 counterexample: at desiredTime 30000 (00:00:30) with no stored
items the slot finder assigns window start 0, which differs from the raw
requested time 30000, yet autoAdjusted is false. -/
theorem slotFinder_autoAdjusted_counterexample :
    findNextAvailableScheduleSlot [] 30000 = .ok ⟨0, false⟩ ∧ (0 : Int) ≠ 30000 :=
  ⟨rfl, by decide⟩

/-- C3 (amended): on success the autoAdjusted flag is true exactly when
the assigned window start differs from the minute-truncated desiredTime
(not the raw requested value), and with zero conflicts the slot finder
returns exactly the truncated desiredTime with autoAdjusted false. -/
theorem slotFinder_autoAdjusted_spec (db : List StoredItem) (desiredDate : Int) :
    (∀ res, findNextAvailableScheduleSlot db desiredDate = .ok res →
        (res.autoAdjusted = true ↔ res.scheduledAt ≠ truncateToMinute desiredDate)) ∧
    (fetchConflictsForRange db (truncateToMinute desiredDate)
        (truncateToMinute desiredDate + slotIntervalMs) = [] →
      findNextAvailableScheduleSlot db desiredDate = .ok ⟨truncateToMinute desiredDate, false⟩) := by
  constructor
  · intro res h
    have := (findSlotLoop_ok db (truncateToMinute desiredDate) maxIterations
      (truncateToMinute desiredDate) res h).1
    rw [this]
    simp
  · intro h
    show findSlotLoop db (truncateToMinute desiredDate) maxIterations
      (truncateToMinute desiredDate) = _
    rw [show maxIterations = 179 + 1 from rfl, findSlotLoop]
    simp [h]

/-- Witness for slotFinder_autoAdjusted_spec on the empty store at
desiredTime 90000 (00:01:30), truncated to 60000. -/
theorem slotFinder_autoAdjusted_spec_witness :
    ((ScheduleResolutionResult.mk 60000 false).autoAdjusted = true ↔
      (ScheduleResolutionResult.mk 60000 false).scheduledAt ≠ truncateToMinute 90000) ∧
    findNextAvailableScheduleSlot [] 90000 = .ok ⟨truncateToMinute 90000, false⟩ :=
  ⟨(slotFinder_autoAdjusted_spec [] 90000).1 ⟨60000, false⟩ rfl,
   (slotFinder_autoAdjusted_spec [] 90000).2 rfl⟩

/-- C5 counterexample: at desiredTime 45000 (00:00:45) with no stored
items the slot finder assigns time 0, strictly earlier than the requested
desiredTime. -/
theorem slotFinder_before_request_counterexample :
    findNextAvailableScheduleSlot [] 45000 = .ok ⟨0, false⟩ ∧ (0 : Int) < 45000 :=
  ⟨rfl, by decide⟩

/-- C5 (amended): for a non-privileged submitter the handler produces no
schedule adjustments, so applying them leaves every stored item
unchanged, and the assigned time is never earlier than the
minute-truncated desiredTime: it is the truncated time plus a whole
number of window widths below the probe bound (forward-only search). The
truncated time itself is within one minute of, and never after, the raw
request. -/
theorem slotFinder_frame_and_forward (db : List StoredItem) (userRole : UserRole)
    (desiredDate : Int) (validPriority : Int) (hrole : userRole ≠ .super_admin) :
    (∀ t adjusted adjustments,
        resolveSchedule db userRole desiredDate validPriority = .ok (t, adjusted, adjustments) →
        adjustments = [] ∧
        applyScheduleAdjustments db adjustments = db ∧
        truncateToMinute desiredDate ≤ t ∧
        ∃ k : Nat, k < maxIterations ∧
          t = truncateToMinute desiredDate + (k : Int) * slotIntervalMs) ∧
    truncateToMinute desiredDate ≤ desiredDate ∧
    desiredDate - truncateToMinute desiredDate < 60000 := by
  refine ⟨?_, ?_, ?_⟩
  · intro t adjusted adjustments h
    rw [resolveSchedule, if_neg hrole] at h
    cases hfind : findNextAvailableScheduleSlot db desiredDate with
    | error e => rw [hfind] at h; exact absurd h (by simp [Except.map])
    | ok s =>
      rw [hfind] at h
      simp only [Except.map] at h
      obtain ⟨h1, h2, h3⟩ : s.scheduledAt = t ∧ s.autoAdjusted = adjusted ∧
          ([] : List ScheduleAdjustment) = adjustments := by
        have := Except.ok.inj h
        exact ⟨congrArg Prod.fst this, congrArg (fun x => x.2.1) this,
          congrArg (fun x => x.2.2) this⟩
      obtain ⟨_, hle, k, hk, he⟩ :=
        findSlotLoop_ok db (truncateToMinute desiredDate) maxIterations
          (truncateToMinute desiredDate) s hfind
      subst h1
      refine ⟨h3.symm, by rw [← h3]; rfl, hle, k, hk, he⟩
  · unfold truncateToMinute
    omega
  · unfold truncateToMinute
    omega

/-- Witness for slotFinder_frame_and_forward: a student submission to the
empty store at desiredTime 90000 resolves to 60000 with no adjustments. -/
theorem slotFinder_frame_and_forward_witness :
    ([] : List ScheduleAdjustment) = [] ∧
    applyScheduleAdjustments [] [] = [] ∧
    truncateToMinute 90000 ≤ (60000 : Int) ∧
    ∃ k : Nat, k < maxIterations ∧
      (60000 : Int) = truncateToMinute 90000 + (k : Int) * slotIntervalMs :=
  (slotFinder_frame_and_forward [] .student 90000 5 (by decide)).1 60000 false [] rfl

/-- Flattening an early return: a branch returning false is a conjunct. -/
theorem if_then_false (c : Prop) [Decidable c] (e : Bool) :
    (if c then false else e) = (!(decide c) && e) := by
  by_cases h : c <;> simp [h]

/-- Flattening a guarded check: skipping the guard allows. -/
theorem if_else_true (c : Prop) [Decidable c] (e : Bool) :
    (if c then e else true) = (!(decide c) || e) := by
  by_cases h : c <;> simp [h]

/-- C7: the visibility gate always allows admin-level viewers; for a
non-admin viewer (a role without admin access and no super-admin flag) it
denies exactly when the status is scheduled, or the category equals the
literal scheduled up to case, or the scheduled time is set and in the
future, or the target years list is non-empty and the intake code is
unknown (absent, or the JS-falsy 0, per the falsiness guard in the
source) or not a member of the list. In particular a scheduled-status
item with a past scheduled time is denied to a non-admin, and intake code
24 is denied against target years [23, 25]. -/
theorem isVisibleToUser_spec (a : Announcement) (userRole : UserRole)
    (isAdmin : Option Bool) (userId : Option Int) (isSuperAdmin : Option Bool)
    (intake : Option Int) (now : Int) :
    (hasAdminAccess userRole = true →
      isVisibleToUser a userRole isAdmin userId isSuperAdmin intake now = true) ∧
    (hasAdminAccess userRole = false → isSuperAdmin.getD false = false →
      (isVisibleToUser a userRole isAdmin userId isSuperAdmin intake now = false ↔
        (a.status = "scheduled" ∨
         (a.category ≠ "" ∧ toLowerStr a.category = "scheduled") ∨
         (∃ t, a.scheduled_at = some t ∧ now < t) ∨
         (∃ ys, a.target_years = some ys ∧ ys ≠ [] ∧
           (intake.getD 0 = 0 ∨ intake.getD 0 ∉ ys))))) ∧
    isVisibleToUser p6_item .student none none none (some 24) 1000000 = false ∧
    isVisibleToUser scenarioD_item .student none none none (some 24) 0 = false := by
  refine ⟨fun h => by simp [isVisibleToUser, h], fun h1 h2 => ?_, by decide, by decide⟩
  simp only [isVisibleToUser, h1, h2, Bool.not_false, Bool.and_self, if_true]
  rcases hsc : a.scheduled_at with _ | t <;> rcases hty : a.target_years with _ | ys <;>
    simp only [if_then_false, if_else_true] <;>
    simp [hsc, hty, List.isEmpty_iff, decide_eq_true_iff] <;>
    (try simp only [← not_lt]) <;>
    tauto

/-- Witness for isVisibleToUser_spec: an admin viewer passes the gate on
the scenario D item, and the non-admin denial condition is exercised at
intake code 22 against target years [23, 25]. -/
theorem isVisibleToUser_spec_witness :
    isVisibleToUser scenarioD_item .admin none none none (some 24) 0 = true ∧
    isVisibleToUser scenarioD_item .student none none none (some 22) 0 = false :=
  ⟨(isVisibleToUser_spec scenarioD_item .admin none none none (some 24) 0).1 rfl,
   ((isVisibleToUser_spec scenarioD_item .student none none none (some 22) 0).2.1
      rfl rfl).mpr (Or.inr (Or.inr (Or.inr ⟨[23, 25], rfl, by decide, by decide⟩)))⟩

/-- C10: the visibility gate treats intake code 0 exactly like a missing
intake code (the membership check is guarded by a falsiness test), and
for a non-admin viewer any item with a non-empty target years list is
denied under either. -/
theorem isVisibleToUser_zero_intake (a : Announcement) (userRole : UserRole)
    (isAdmin : Option Bool) (userId : Option Int) (isSuperAdmin : Option Bool)
    (now : Int) :
    isVisibleToUser a userRole isAdmin userId isSuperAdmin (some 0) now =
      isVisibleToUser a userRole isAdmin userId isSuperAdmin none now ∧
    (hasAdminAccess userRole = false → isSuperAdmin.getD false = false →
      ∀ ys, a.target_years = some ys → ys ≠ [] →
        isVisibleToUser a userRole isAdmin userId isSuperAdmin (some 0) now = false ∧
        isVisibleToUser a userRole isAdmin userId isSuperAdmin none now = false) := by
  refine ⟨rfl, fun h1 h2 ys hys hne => ?_⟩
  constructor <;>
    simp [isVisibleToUser, h1, h2, hys, List.isEmpty_iff, hne, if_then_false, if_else_true]

/-- Witness for isVisibleToUser_zero_intake at the scenario D item with
intake code 0. -/
theorem isVisibleToUser_zero_intake_witness :
    isVisibleToUser scenarioD_item .student none none none (some 0) 0 = false ∧
    isVisibleToUser scenarioD_item .student none none none none 0 = false :=
  (isVisibleToUser_zero_intake scenarioD_item .student none none none 0).2
    rfl rfl [23, 25] rfl (by decide)

/-- C6 counterexample: the comparator is cyclic on three equal-priority
items whose creation times are 900 ms apart pairwise but 1800 ms apart
end to end: within the 1000 ms simultaneity threshold the id tie-break
applies, beyond it the creation-time fallback applies, and the two
disagree, so the presentation ordering is not a total order. -/
theorem announcementCmp_cycle_counterexample :
    announcementCmp 0 cycA cycB < 0 ∧ announcementCmp 0 cycB cycC < 0 ∧
      announcementCmp 0 cycC cycA < 0 := by decide

/-- C6: the presentation ordering comparator decides, most-significant
first: emergency items before non-emergency ones; then priorityLevel
ascending (defaulting to 3); when priority is tied and the creation times
differ by at most 1000 ms, higher id first; when priority is tied and the
gap exceeds 1000 ms, an urgent item with a still-future priority expiry
sorts before one without; otherwise creation time descending. Ties keep
input order (stable sort). In particular scenario C sorts [A, B] into
[B, A]. -/
theorem announcementCmp_keys (now : Int) (a b : Announcement) :
    (a.is_emergency = true → b.is_emergency = false → announcementCmp now a b < 0) ∧
    (a.is_emergency = false → b.is_emergency = true → 0 < announcementCmp now a b) ∧
    (a.is_emergency = b.is_emergency →
      a.priority_level.getD 3 < b.priority_level.getD 3 → announcementCmp now a b < 0) ∧
    (a.is_emergency = b.is_emergency →
      b.priority_level.getD 3 < a.priority_level.getD 3 → 0 < announcementCmp now a b) ∧
    (a.is_emergency = b.is_emergency → a.priority_level.getD 3 = b.priority_level.getD 3 →
      |a.created_at.getD 0 - b.created_at.getD 0| ≤ SAME_TIME_THRESHOLD →
      announcementCmp now a b = b.id.getD 0 - a.id.getD 0) ∧
    (a.is_emergency = b.is_emergency → a.priority_level.getD 3 = b.priority_level.getD 3 →
      SAME_TIME_THRESHOLD < |a.created_at.getD 0 - b.created_at.getD 0| →
      hasActivePriorityWindow now a = true → hasActivePriorityWindow now b = false →
      announcementCmp now a b < 0) ∧
    (a.is_emergency = b.is_emergency → a.priority_level.getD 3 = b.priority_level.getD 3 →
      SAME_TIME_THRESHOLD < |a.created_at.getD 0 - b.created_at.getD 0| →
      hasActivePriorityWindow now a = false → hasActivePriorityWindow now b = true →
      0 < announcementCmp now a b) ∧
    (a.is_emergency = b.is_emergency → a.priority_level.getD 3 = b.priority_level.getD 3 →
      SAME_TIME_THRESHOLD < |a.created_at.getD 0 - b.created_at.getD 0| →
      hasActivePriorityWindow now a = hasActivePriorityWindow now b →
      announcementCmp now a b = b.created_at.getD 0 - a.created_at.getD 0) ∧
    sortAnnouncementsByPriority [scenarioC_A, scenarioC_B] .student 0 =
      [scenarioC_B, scenarioC_A] := by
  refine ⟨?_, ?_, ?_, ?_, ?_, ?_, ?_, ?_, by decide⟩ <;>
    intro h1 h2 <;>
    first
    | (intro h3 h4 h5
       simp only [announcementCmp, h1, h2, h3, h4, h5]
       split_ifs with e1 e2 <;> simp_all <;> omega)
    | (intro h3
       simp only [announcementCmp, h1, h2, h3]
       split_ifs with e1 e2 <;> simp_all <;> omega)
    | (simp only [announcementCmp, h1, h2]
       split_ifs with e1 e2 <;> simp_all <;> omega)

/-- Witness for announcementCmp_keys: the same-window id tie-break
applied to the scenario C pair. -/
theorem announcementCmp_keys_witness :
    announcementCmp 0 scenarioC_A scenarioC_B =
      scenarioC_B.id.getD 0 - scenarioC_A.id.getD 0 :=
  (announcementCmp_keys 0 scenarioC_A scenarioC_B).2.2.2.2.1 rfl rfl (by decide)

/-- C8: the presentation ordering is deterministic: running it twice on
the same input at the same evaluation time yields the same output, and on
a list whose items are all tied under the comparator the stable sort
returns the input order unchanged, so the comparator together with
stability fully determines the output. -/
theorem sortAnnouncements_deterministic (l : List Announcement)
    (userRole : UserRole) (now : Int) :
    sortAnnouncementsByPriority l userRole now = sortAnnouncementsByPriority l userRole now ∧
    ((∀ a ∈ l, ∀ b ∈ l, announcementCmp now a b = 0) →
      sortAnnouncementsByPriority l userRole now = l) := by
  refine ⟨rfl, fun h => ?_⟩
  unfold sortAnnouncementsByPriority
  apply List.Sorted.insertionSort_eq
  apply List.pairwise_of_forall_mem_list
  intro a ha b hb
  unfold AnnouncementLE
  rw [h a ha b hb]

/-- Witness for sortAnnouncements_deterministic on a two-element list
tied on every comparator key. -/
theorem sortAnnouncements_deterministic_witness :
    sortAnnouncementsByPriority [tiedX, tiedY] .admin 0 = [tiedX, tiedY] :=
  (sortAnnouncements_deterministic [tiedX, tiedY] .admin 0).2 (by decide)

/-- Membership in the adjustments produced by the walk: an adjustment is
emitted exactly for the records at positions whose stored time is not the
window of that position. -/
theorem mem_reflowWalk_adjustments :
    ∀ (l : List ReflowRecord) (cursor : Int) (a : ScheduleAdjustment),
      a ∈ (reflowWalk l cursor).1 ↔
        ∃ (k : Nat) (r : ReflowRecord), l[k]? = some r ∧ r.id = some a.id ∧
          a.newTime = cursor + (k : Int) * slotIntervalMs ∧
          r.scheduledAt ≠ some (cursor + (k : Int) * slotIntervalMs) := by
  intro l
  induction l with
  | nil =>
    intro cursor a
    simp [reflowWalk]
  | cons r rest ih =>
    intro cursor a
    rw [reflowWalk]
    rcases hid : r.id with _ | i
    · simp only
      rw [ih]
      constructor
      · rintro ⟨k, r', hk, hir, hnt, hsc⟩
        exact ⟨k + 1, r', by simpa using hk, hir, by rw [← window_step]; exact hnt,
          by rw [← window_step]; exact hsc⟩
      · rintro ⟨k, r', hk, hir, hnt, hsc⟩
        cases k with
        | zero =>
          rw [List.getElem?_cons_zero] at hk
          obtain rfl : r = r' := by exact Option.some.inj hk
          rw [hid] at hir
          exact absurd hir (by simp)
        | succ k =>
          rw [List.getElem?_cons_succ] at hk
          exact ⟨k, r', hk, hir, by rw [window_step]; exact hnt,
            by rw [window_step]; exact hsc⟩
    · simp only
      by_cases hsc : r.scheduledAt = some cursor
      · rw [if_pos hsc, ih]
        constructor
        · rintro ⟨k, r', hk, hir, hnt, hs⟩
          exact ⟨k + 1, r', by simpa using hk, hir, by rw [← window_step]; exact hnt,
            by rw [← window_step]; exact hs⟩
        · rintro ⟨k, r', hk, hir, hnt, hs⟩
          cases k with
          | zero =>
            rw [List.getElem?_cons_zero] at hk
            obtain rfl : r = r' := by exact Option.some.inj hk
            rw [Nat.cast_zero, zero_mul, add_zero] at hs
            exact absurd hsc hs
          | succ k =>
            rw [List.getElem?_cons_succ] at hk
            exact ⟨k, r', hk, hir, by rw [window_step]; exact hnt,
              by rw [window_step]; exact hs⟩
      · rw [if_neg hsc]
        simp only [List.mem_cons]
        rw [ih]
        constructor
        · rintro (rfl | ⟨k, r', hk, hir, hnt, hs⟩)
          · exact ⟨0, r, by simp, by simp [hid], by simp, by simpa using hsc⟩
          · exact ⟨k + 1, r', by simpa using hk, hir, by rw [← window_step]; exact hnt,
              by rw [← window_step]; exact hs⟩
        · rintro ⟨k, r', hk, hir, hnt, hs⟩
          cases k with
          | zero =>
            left
            rw [List.getElem?_cons_zero] at hk
            obtain rfl : r = r' := by exact Option.some.inj hk
            rw [hid] at hir
            obtain rfl : i = a.id := Option.some.inj hir
            rw [Nat.cast_zero, zero_mul, add_zero] at hnt
            cases a
            simp_all
          | succ k =>
            right
            rw [List.getElem?_cons_succ] at hk
            exact ⟨k, r', hk, hir, by rw [window_step]; exact hnt,
              by rw [window_step]; exact hs⟩

/-- When no record is the new announcement, the walk assigns nothing. -/
theorem reflowWalk_assigned_none :
    ∀ (l : List ReflowRecord) (cursor : Int),
      (∀ r ∈ l, r.id ≠ none) → (reflowWalk l cursor).2 = none := by
  intro l
  induction l with
  | nil => intro cursor _; rfl
  | cons r rest ih =>
    intro cursor h
    rw [reflowWalk]
    rcases hid : r.id with _ | i
    · exact absurd hid (h r (List.mem_cons_self r rest))
    · simp only
      by_cases hsc : r.scheduledAt = some cursor
      · rw [if_pos hsc]
        exact ih _ fun r' hr' => h r' (List.mem_cons_of_mem r hr')
      · rw [if_neg hsc]
        exact ih _ fun r' hr' => h r' (List.mem_cons_of_mem r hr')

/-- When the list holds exactly one new-announcement record, at position
k, the walk assigns it the window k widths past the cursor. -/
theorem reflowWalk_assigned_eq :
    ∀ (l : List ReflowRecord) (cursor : Int) (k : Nat) (r : ReflowRecord),
      l[k]? = some r → r.id = none →
      (∀ (j : Nat) (r' : ReflowRecord), l[j]? = some r' → r'.id = none → j = k) →
      (reflowWalk l cursor).2 = some (cursor + (k : Int) * slotIntervalMs) := by
  intro l
  induction l with
  | nil =>
    intro cursor k r hk
    simp at hk
  | cons x rest ih =>
    intro cursor k r hk hid huniq
    rw [reflowWalk]
    cases k with
    | zero =>
      rw [List.getElem?_cons_zero] at hk
      obtain rfl : x = r := by exact Option.some.inj hk
      rw [hid]
      simp only
      have hrest : (reflowWalk rest (cursor + slotIntervalMs)).2 = none := by
        apply reflowWalk_assigned_none
        intro r' hr' hn
        obtain ⟨j, hj⟩ := List.getElem?_of_mem hr'
        exact Nat.succ_ne_zero j
          (huniq (j + 1) r' (by rw [List.getElem?_cons_succ]; exact hj) hn)
      rw [hrest]
      simp
    | succ k =>
      rw [List.getElem?_cons_succ] at hk
      rcases hxid : x.id with _ | i
      · exact absurd (huniq 0 x (by simp) hxid) (Nat.succ_ne_zero k).symm
      · simp only
        have htail : (reflowWalk rest (cursor + slotIntervalMs)).2 =
            some (cursor + slotIntervalMs + (k : Int) * slotIntervalMs) := by
          apply ih _ k r hk hid
          intro j r' hj hn
          have := huniq (j + 1) r' (by rw [List.getElem?_cons_succ]; exact hj) hn
          omega
        by_cases hsc : x.scheduledAt = some cursor
        · rw [if_pos hsc, htail, window_step]
        · rw [if_neg hsc]
          simp only
          rw [htail, window_step]

/-- Stability of the reflow sort: the records carrying any fixed sort key
appear in the output in the same order as in the input. -/
theorem reflowSort_stable (records : List ReflowRecord) (pl rp : Int) :
    (records.insertionSort ReflowLE).filter
        (fun r => decide (r.priorityLevel = pl) && decide (r.rolePriority = rp)) =
      records.filter
        (fun r => decide (r.priorityLevel = pl) && decide (r.rolePriority = rp)) := by
  set p : ReflowRecord → Bool :=
    fun r => decide (r.priorityLevel = pl) && decide (r.rolePriority = rp) with hp
  have hmemp : ∀ r, p r = true → r.priorityLevel = pl ∧ r.rolePriority = rp := by
    intro r hr
    rw [hp] at hr
    simpa using hr
  have hpair : (records.filter p).Pairwise ReflowLE := by
    apply List.pairwise_of_forall_mem_list
    intro a ha b hb
    have ha' := hmemp a (List.of_mem_filter ha)
    have hb' := hmemp b (List.of_mem_filter hb)
    right
    constructor
    · rw [ha'.1, hb'.1]
    · rw [ha'.2, hb'.2]
  have hsub : List.Sublist (records.filter p) (records.insertionSort ReflowLE) :=
    List.sublist_insertionSort hpair (List.filter_sublist records)
  have hself : (records.filter p).filter p = records.filter p :=
    List.filter_eq_self.mpr fun x hx => List.of_mem_filter hx
  have hsub2 : List.Sublist (records.filter p) ((records.insertionSort ReflowLE).filter p) := by
    have := hsub.filter p
    rwa [hself] at this
  have hperm : List.Perm ((records.insertionSort ReflowLE).filter p) (records.filter p) :=
    (List.perm_insertionSort ReflowLE records).filter p
  exact (hsub2.eq_of_length hperm.length_eq.symm).symm

/-- The combined reflow records hold exactly one new-announcement entry. -/
theorem countP_isNone_reflowRecords (conflicts : List StoredItem)
    (normalizedDesired newAnnouncementPriority : Int) (userRole : UserRole) :
    (reflowRecords conflicts normalizedDesired newAnnouncementPriority userRole).countP
      (fun r => r.id.isNone) = 1 := by
  unfold reflowRecords
  rw [List.countP_append]
  have h0 : (conflicts.map toReflowRecord).countP (fun r => r.id.isNone) = 0 := by
    rw [List.countP_eq_zero]
    intro r hr
    obtain ⟨c, _, rfl⟩ := List.mem_map.mp hr
    simp [toReflowRecord]
  rw [h0]
  rfl

/-- A predicate holding for at most one element of a list holds at no two
distinct positions. -/
theorem getElem?_unique_of_countP_le_one {α : Type} (p : α → Bool) :
    ∀ (l : List α), l.countP p ≤ 1 →
      ∀ (j k : Nat) (x y : α), l[j]? = some x → p x → l[k]? = some y → p y → j = k := by
  intro l
  induction l with
  | nil =>
    intro _ j k x y hx
    simp at hx
  | cons a t ih =>
    intro hc j k x y hx hpx hy hpy
    cases j with
    | zero =>
      cases k with
      | zero => rfl
      | succ k =>
        rw [List.getElem?_cons_zero] at hx
        obtain rfl : a = x := by exact Option.some.inj hx
        rw [List.countP_cons_of_pos p t hpx] at hc
        have ht : t.countP p = 0 := by omega
        rw [List.getElem?_cons_succ] at hy
        have hmem : y ∈ t := List.getElem?_mem hy
        rw [List.countP_eq_zero] at ht
        exact absurd hpy (ht y hmem)
    | succ j =>
      cases k with
      | zero =>
        rw [List.getElem?_cons_zero] at hy
        obtain rfl : a = y := by exact Option.some.inj hy
        rw [List.countP_cons_of_pos p t hpy] at hc
        have ht : t.countP p = 0 := by omega
        rw [List.getElem?_cons_succ] at hx
        have hmem : x ∈ t := List.getElem?_mem hx
        rw [List.countP_eq_zero] at ht
        exact absurd hpx (ht x hmem)
      | succ k =>
        have hct : t.countP p ≤ 1 := by
          rw [List.countP_cons] at hc
          omega
        rw [List.getElem?_cons_succ] at hx hy
        exact congrArg Nat.succ (ih hct j k x y hx hpx hy hpy)

/-- With conflicts present, the reflow result fields are those computed
by the walk over the sorted records. -/
theorem reflow_eq_of_conflicts (db : List StoredItem) (desiredDate newPriority : Int)
    (userRole : UserRole) (hconf : reflowConflicts db desiredDate ≠ []) :
    reflowSchedulesForSuperAdmin db desiredDate newPriority userRole =
      { scheduledAt :=
          (reflowWalk (reflowSorted db desiredDate newPriority userRole)
              (truncateToMinute desiredDate)).2.getD (truncateToMinute desiredDate)
        autoAdjusted :=
          decide ((reflowWalk (reflowSorted db desiredDate newPriority userRole)
              (truncateToMinute desiredDate)).2.getD (truncateToMinute desiredDate) ≠
            truncateToMinute desiredDate) ||
          decide ((reflowWalk (reflowSorted db desiredDate newPriority userRole)
              (truncateToMinute desiredDate)).1 ≠ [])
        adjustments :=
          (reflowWalk (reflowSorted db desiredDate newPriority userRole)
              (truncateToMinute desiredDate)).1 } := by
  unfold reflowSchedulesForSuperAdmin
  rw [if_neg (by simpa [List.isEmpty_iff] using hconf)]

/-- The sorted reflow records still hold exactly one new-announcement
entry, and it sits at a single position. -/
theorem reflowSorted_unique_none (db : List StoredItem) (desiredDate newPriority : Int)
    (userRole : UserRole) :
    ∀ (j k : Nat) (x y : ReflowRecord),
      (reflowSorted db desiredDate newPriority userRole)[j]? = some x → x.id = none →
      (reflowSorted db desiredDate newPriority userRole)[k]? = some y → y.id = none →
      j = k := by
  intro j k x y hj hx hk hy
  have hcount : (reflowSorted db desiredDate newPriority userRole).countP
      (fun r => r.id.isNone) = 1 := by
    unfold reflowSorted
    rw [(List.perm_insertionSort ReflowLE _).countP_eq]
    exact countP_isNone_reflowRecords _ _ _ _
  exact getElem?_unique_of_countP_le_one (fun r => r.id.isNone) _
    (le_of_eq hcount) j k x y hj (by simp [hx]) hk (by simp [hy])

/-- C1: with a non-empty conflict set, the reflow sorts the combined list
(conflicts in query order, the new item last) stably by priorityLevel
ascending then role rank descending, and hands out windows sequentially
from the truncated desired time: the list has conflicts + 1 entries, the
window of position k is the truncated time plus k window widths, these
windows are strictly increasing and contiguous, and every entry placed
earlier in the sorted order receives an earlier window. -/
theorem reflow_priority_order_and_windows (db : List StoredItem)
    (desiredDate newPriority : Int) (userRole : UserRole)
    (hconf : reflowConflicts db desiredDate ≠ []) :
    List.Perm (reflowSorted db desiredDate newPriority userRole)
      (reflowRecords (reflowConflicts db desiredDate) (truncateToMinute desiredDate)
        newPriority userRole) ∧
    List.Sorted ReflowLE (reflowSorted db desiredDate newPriority userRole) ∧
    (∀ pl rp : Int,
      (reflowSorted db desiredDate newPriority userRole).filter
          (fun r => decide (r.priorityLevel = pl) && decide (r.rolePriority = rp)) =
        (reflowRecords (reflowConflicts db desiredDate) (truncateToMinute desiredDate)
            newPriority userRole).filter
          (fun r => decide (r.priorityLevel = pl) && decide (r.rolePriority = rp))) ∧
    (reflowSorted db desiredDate newPriority userRole).length =
      (reflowConflicts db desiredDate).length + 1 ∧
    (∀ j k : Nat, j < k →
      truncateToMinute desiredDate + (j : Int) * slotIntervalMs <
        truncateToMinute desiredDate + (k : Int) * slotIntervalMs) ∧
    (∀ (k : Nat) (r : ReflowRecord),
      (reflowSorted db desiredDate newPriority userRole)[k]? = some r → r.id = none →
      (reflowSchedulesForSuperAdmin db desiredDate newPriority userRole).scheduledAt =
        truncateToMinute desiredDate + (k : Int) * slotIntervalMs) ∧
    (∀ a ∈ (reflowSchedulesForSuperAdmin db desiredDate newPriority userRole).adjustments,
      ∃ (k : Nat) (r : ReflowRecord),
        (reflowSorted db desiredDate newPriority userRole)[k]? = some r ∧
        r.id = some a.id ∧
        a.newTime = truncateToMinute desiredDate + (k : Int) * slotIntervalMs) := by
  refine ⟨?_, ?_, ?_, ?_, ?_, ?_, ?_⟩
  · exact List.perm_insertionSort ReflowLE _
  · exact List.sorted_insertionSort ReflowLE _
  · intro pl rp
    exact reflowSort_stable _ pl rp
  · unfold reflowSorted
    rw [List.length_insertionSort]
    simp [reflowRecords]
  · intro j k hjk
    have hw : slotIntervalMs = 300000 := rfl
    rw [hw]
    omega
  · intro k r hk hid
    rw [reflow_eq_of_conflicts db desiredDate newPriority userRole hconf]
    simp only
    rw [reflowWalk_assigned_eq _ _ k r hk hid
      (fun j r' hj hr' => reflowSorted_unique_none db desiredDate newPriority userRole
        j k r' r hj hr' hk hid)]
    rfl
  · intro a ha
    rw [reflow_eq_of_conflicts db desiredDate newPriority userRole hconf] at ha
    simp only at ha
    obtain ⟨k, r, hk, hid, hnt, _⟩ := (mem_reflowWalk_adjustments _ _ a).mp ha
    exact ⟨k, r, hk, hid, hnt⟩

/-- Witness for reflow_priority_order_and_windows at the scenario B
store: one conflict, so two sorted entries. -/
theorem reflow_priority_order_and_windows_witness :
    (reflowSorted scenarioB_db 36000000 0 .super_admin).length =
      (reflowConflicts scenarioB_db 36000000).length + 1 :=
  (reflow_priority_order_and_windows scenarioB_db 36000000 0 .super_admin
    (by decide)).2.2.2.1

/-- C4: with conflicts present, an adjustment for an existing item at
sorted position k is emitted exactly when its stored time differs from
the window of position k; the new item receives the window of its own
sorted position as its scheduled time; autoAdjusted is true exactly when
the new item missed the requested window or some adjustment was emitted.
Scenario B: one existing conflict at 10:00 of priority 3 and role rank 4
against a new top-authority priority-0 submission at 10:00 gives the new
item 10:00, one adjustment moving the existing item to 10:05, and
autoAdjusted true. -/
theorem reflow_adjustments_spec (db : List StoredItem) (desiredDate newPriority : Int)
    (userRole : UserRole) (hconf : reflowConflicts db desiredDate ≠ []) :
    (∀ (k : Nat) (r : ReflowRecord) (i : Int),
      (reflowSorted db desiredDate newPriority userRole)[k]? = some r → r.id = some i →
      (ScheduleAdjustment.mk i (truncateToMinute desiredDate + (k : Int) * slotIntervalMs) ∈
          (reflowSchedulesForSuperAdmin db desiredDate newPriority userRole).adjustments ↔
        r.scheduledAt ≠ some (truncateToMinute desiredDate + (k : Int) * slotIntervalMs))) ∧
    (∀ (k : Nat) (r : ReflowRecord),
      (reflowSorted db desiredDate newPriority userRole)[k]? = some r → r.id = none →
      (reflowSchedulesForSuperAdmin db desiredDate newPriority userRole).scheduledAt =
        truncateToMinute desiredDate + (k : Int) * slotIntervalMs) ∧
    ((reflowSchedulesForSuperAdmin db desiredDate newPriority userRole).autoAdjusted = true ↔
      ((reflowSchedulesForSuperAdmin db desiredDate newPriority userRole).scheduledAt ≠
          truncateToMinute desiredDate ∨
        (reflowSchedulesForSuperAdmin db desiredDate newPriority userRole).adjustments ≠ [])) ∧
    reflowSchedulesForSuperAdmin scenarioB_db 36000000 0 .super_admin =
      ⟨36000000, true, [⟨1, 36300000⟩]⟩ := by
  refine ⟨?_, ?_, ?_, by decide⟩
  · intro k r i hk hid
    rw [reflow_eq_of_conflicts db desiredDate newPriority userRole hconf]
    simp only
    constructor
    · intro hmem
      obtain ⟨k2, r2, hk2, hid2, hnt2, hs2⟩ := (mem_reflowWalk_adjustments _ _ _).mp hmem
      have hw : slotIntervalMs = 300000 := rfl
      have hkk : k2 = k := by
        have hnt3 : truncateToMinute desiredDate + (k : Int) * slotIntervalMs =
            truncateToMinute desiredDate + (k2 : Int) * slotIntervalMs := hnt2
        rw [hw] at hnt3
        omega
      subst hkk
      rw [hk2] at hk
      obtain rfl : r2 = r := Option.some.inj hk
      exact fun hcontra => hs2 (by rw [← hnt2] at hcontra; exact hcontra)
    · intro hne
      apply (mem_reflowWalk_adjustments _ _ _).mpr
      exact ⟨k, r, hk, by rw [hid], rfl, hne⟩
  · intro k r hk hid
    rw [reflow_eq_of_conflicts db desiredDate newPriority userRole hconf]
    simp only
    rw [reflowWalk_assigned_eq _ _ k r hk hid
      (fun j r2 hj hr2 => reflowSorted_unique_none db desiredDate newPriority userRole
        j k r2 r hj hr2 hk hid)]
    rfl
  · rw [reflow_eq_of_conflicts db desiredDate newPriority userRole hconf]
    simp only [Bool.or_eq_true, decide_eq_true_iff]

/-- Witness for reflow_adjustments_spec: the scenario B computation. -/
theorem reflow_adjustments_spec_witness :
    reflowSchedulesForSuperAdmin scenarioB_db 36000000 0 .super_admin =
      ⟨36000000, true, [⟨1, 36300000⟩]⟩ :=
  (reflow_adjustments_spec scenarioB_db 36000000 0 .super_admin (by decide)).2.2.2

end SSTAnnouncement
